import Mathlib

/-
Verification of the pailgun server (src/python/pants/pantsd/pailgun_server.py).

The server's observable behaviour per accepted connection is a sequence of
effects on external collaborators: the nailgun wire codec (parse_request,
send_stderr, send_exit_with_code), the runner factory, the request-completed
callback, and the socket teardown primitives (shutdown_request/close_request).
We embed each method as a function from an oracle environment (recording how
each collaborator call turns out) to the list of emitted effect events paired
with the method's own outcome (normal return or a propagating exception).
-/

namespace PailgunSpec

/-- Abstract descriptor of a Python exception value (its identity only). -/
abbrev Exc := String

/-- Observable effect events of one connection's handler thread, in program
order.  `runnerRun args env` records the call
`runner_factory(sock, arguments, environment).run()` with the exact argument
list and environment; `sendStderr`/`sendExit` record completed codec writes to
the connection; `shutdownRequest`/`closeRequest` record the server teardown
calls on the connection. -/
inductive Event where
  | runnerRun (arguments : List String) (environment : List (String × String))
  | requestCompleteCallback
  | sendStderr (message : String)
  | sendExit (code : Int)
  | shutdownRequest
  | closeRequest
  deriving DecidableEq, Repr

/-- Oracle for the external collaborators of one request: the result of
`NailgunProtocol.parse_request` (working dir, command, arguments, environment,
or a raised exception), the outcome of the runner's `run()` as a function of
the arguments and environment it is invoked with, the outcome of the server's
`request_complete_callback`, and the outcomes of the codec's
`send_stderr` / `send_exit_with_code` writes. -/
structure HandlerEnv where
  parseResult : Except Exc (String × String × List String × List (String × String))
  runnerRun : List String → List (String × String) → Except Exc Unit
  callbackResult : Except Exc Unit
  sendStderrResult : Except Exc Unit
  sendExitResult : Except Exc Unit

/-- Embedding of `traceback.format_exc()` for a caught exception: the stdlib
renders the active traceback as text that always carries this header, so the
result is never the empty string. -/
def formatExc (e : Exc) : String :=
  "Traceback (most recent call last):\n" ++ e

/-- Embedding of `PailgunHandler.handle` (pailgun_server.py:61-83): parse the
nailgun request, discard the working-directory and command fields, prepend the
fixed program token `./pants` to the argument list (`arguments.insert(0,
'./pants')`), and run the runner with the resulting arguments and the decoded
environment under `maybe_profiled` (a transparent profiling context) — the
logging calls and the profiling wrapper have no connection-observable effect.
A parse failure propagates before any runner call; the runner invocation event
is emitted whether or not `run()` itself raises. -/
def PailgunHandler.handle (env : HandlerEnv) : List Event × Except Exc Unit :=
  match env.parseResult with
  | .error e => ([], .error e)
  | .ok (_working_dir, _command, arguments, environment) =>
    let arguments := "./pants" :: arguments
    ([Event.runnerRun arguments environment], env.runnerRun arguments environment)

/-- Embedding of `PailgunHandlerBase.handle_request` (pailgun_server.py:35-45):
`setup()` then `handle()` in a try/finally with `finish()`.  `setup` and
`finish` are the `BaseRequestHandler` no-ops, so the behaviour is that of
`handle` itself. -/
def PailgunHandler.handle_request (env : HandlerEnv) : List Event × Except Exc Unit :=
  PailgunHandler.handle env

/-- Embedding of `PailgunHandler.handle_error` (pailgun_server.py:85-90): when
an exception object is present (it is always truthy), send the formatted
traceback as stderr, then send exit code `failure_code = 1`.  A raise from
either codec write propagates immediately, skipping the rest; events record
only completed writes. -/
def PailgunHandler.handle_error (env : HandlerEnv) (exc : Option Exc) :
    List Event × Except Exc Unit :=
  match exc with
  | none =>
    match env.sendExitResult with
    | .ok () => ([Event.sendExit 1], .ok ())
    | .error e2 => ([], .error e2)
  | some e =>
    match env.sendStderrResult with
    | .error e2 => ([], .error e2)
    | .ok () =>
      match env.sendExitResult with
      | .ok () => ([Event.sendStderr (formatExc e), Event.sendExit 1], .ok ())
      | .error e2 => ([Event.sendStderr (formatExc e)], .error e2)

/-- Embedding of `PailgunServer.process_request_thread`
(pailgun_server.py:181-203), the body run on the spawned per-connection
thread.  It constructs the handler and tries `handler.handle_request()`
followed by `self.request_complete_callback()`; on success of both it runs the
`else` branch, `self.close_request(request)`.  If either raises, it runs
`handler.handle_error(e)` with the caught exception, with
`self.shutdown_request(request)` in a `finally`, so the shutdown call happens
whether or not `handle_error` itself raises, and a raise from `handle_error`
then propagates out of this function.  The `Native()` thread-logging
redirection at entry has no connection-observable effect. -/
def PailgunServer.process_request_thread (env : HandlerEnv) :
    List Event × Except Exc Unit :=
  let t1 := (PailgunHandler.handle_request env).1
  match (PailgunHandler.handle_request env).2 with
  | .ok () =>
    match env.callbackResult with
    | .ok () =>
      (t1 ++ [Event.requestCompleteCallback, Event.closeRequest], .ok ())
    | .error e =>
      let t2 := (PailgunHandler.handle_error env (some e)).1
      (t1 ++ [Event.requestCompleteCallback] ++ t2 ++ [Event.shutdownRequest],
       (PailgunHandler.handle_error env (some e)).2)
  | .error e =>
    let t2 := (PailgunHandler.handle_error env (some e)).1
    (t1 ++ t2 ++ [Event.shutdownRequest],
     (PailgunHandler.handle_error env (some e)).2)

/-- Value of the class attribute `PailgunServer.daemon_threads`. -/
def PailgunServer.daemon_threads : Bool := true

/-- Result of `PailgunServer.process_request` (pailgun_server.py:143-155): a
started thread with the given name and daemon flag whose body is
`process_request_thread`; the body's trace and outcome stay on that thread and
are not part of the dispatching caller's behaviour. -/
structure SpawnedThread where
  name : String
  daemon : Bool
  bodyTrace : List Event
  bodyOutcome : Except Exc Unit

/-- Embedding of `PailgunServer.process_request`: spawn the named daemon
thread running `process_request_thread` and return at once. -/
def PailgunServer.process_request (env : HandlerEnv) : SpawnedThread :=
  { name := "PailgunRequestThread"
    daemon := PailgunServer.daemon_threads
    bodyTrace := (PailgunServer.process_request_thread env).1
    bodyOutcome := (PailgunServer.process_request_thread env).2 }

/-- Modelled from the spec: the thread runtime (Python `threading`, an
external collaborator not under src/) catches any exception escaping a thread
body and logs it; per the spec, an error-path failure "is not further
escalated to the Listener".  This predicate says whether a spawned thread's
body failure reaches the listener: it never does. -/
def threadEscalatesToListener (_t : SpawnedThread) : Bool := false

/-- Modelled from the spec: `TCPServer.shutdown_request` (stdlib collaborator)
shuts the connection down and then closes it, while `close_request` only
closes it — the spec's error path "explicitly shuts down and closes the
connection" and its success path closes "without an explicit shutdown call".
`shutsDownConnection` marks events that shut the connection down. -/
def Event.shutsDownConnection : Event → Bool
  | .shutdownRequest => true
  | _ => false

/-- Modelled from the spec: events that close the connection handle
(`shutdown_request` closes after shutting down; `close_request` closes). -/
def Event.closesConnection : Event → Bool
  | .shutdownRequest => true
  | .closeRequest => true
  | _ => false

/-- Events that release the connection via one of the two server teardown
calls (`shutdown_request` or `close_request`). -/
def Event.releasesConnection : Event → Bool
  | .shutdownRequest => true
  | .closeRequest => true
  | _ => false

/-- Number of connection-releasing teardown calls in a trace. -/
def releaseCount (t : List Event) : Nat :=
  (t.filter Event.releasesConnection).length

/-- Recogniser for the request-completed callback invocation event. -/
def Event.isCallback : Event → Bool
  | .requestCompleteCallback => true
  | _ => false

/-- Number of request-completed callback invocations in a trace. -/
def callbackCount (t : List Event) : Nat :=
  (t.filter Event.isCallback).length

/-- Value of the class attribute `PailgunServer.timeout = 0.05` (seconds),
expressed exactly as a rational number. -/
def PailgunServer.timeout : ℚ := 1 / 20

/-- Observable steps of the listener's `PailgunServer.handle_request`
(pailgun_server.py:157-179): the bounded `safe_select` wait with its effective
timeout, the idle-tick `handle_timeout` call, and the lifecycle-lock
acquire / non-blocking-dispatch / release sequence. -/
inductive ServerEvent where
  | selectWait (timeout : Option ℚ)
  | handleTimeout
  | acquireLifecycleLock
  | handleRequestNoblock
  | releaseLifecycleLock
  deriving DecidableEq, Repr

/-- Embedding of the timeout computation at pailgun_server.py:166-170:
`timeout = self.socket.gettimeout(); if timeout is None: timeout =
self.timeout; elif self.timeout is not None: timeout = min(timeout,
self.timeout)`.  `none` stands for Python `None` (an unbounded wait). -/
def effective_timeout (socketTimeout selfTimeout : Option ℚ) : Option ℚ :=
  match socketTimeout, selfTimeout with
  | none, st => st
  | some t, none => some t
  | some t, some st => some (min t st)

/-- Embedding of `PailgunServer.handle_request` (pailgun_server.py:157-179):
compute the effective timeout and wait in `safe_select`; if nothing is
readable (`selectReady = false`), call `handle_timeout()` (a `BaseServer`
no-op) and return normally.  Otherwise enter `with self.lifecycle_lock():`
and run `self._handle_request_noblock()` — accept plus thread-spawning
dispatch, whose outcome is the oracle `noblockOutcome`; the `with` statement
releases the lock unconditionally, also when the dispatch step raises, and
the raise then propagates.  Request processing itself happens on the spawned
thread (`process_request` returns a `SpawnedThread` whose body runs
separately), so no handler effect occurs between the acquire and the
release. -/
def PailgunServer.handle_request (socketTimeout selfTimeout : Option ℚ)
    (selectReady : Bool) (noblockOutcome : Except Exc Unit) :
    List ServerEvent × Except Exc Unit :=
  let timeout := effective_timeout socketTimeout selfTimeout
  if selectReady then
    ([ServerEvent.selectWait timeout, ServerEvent.acquireLifecycleLock,
      ServerEvent.handleRequestNoblock, ServerEvent.releaseLifecycleLock],
     noblockOutcome)
  else
    ([ServerEvent.selectWait timeout, ServerEvent.handleTimeout], .ok ())

/-- Recogniser for the lifecycle-lock acquisition step. -/
def ServerEvent.isAcquire : ServerEvent → Bool
  | .acquireLifecycleLock => true
  | _ => false

/-- Recogniser for the lifecycle-lock release step. -/
def ServerEvent.isRelease : ServerEvent → Bool
  | .releaseLifecycleLock => true
  | _ => false

/-- Events of a listener trace lying strictly between the lifecycle-lock
acquire and the matching release: the steps executed while the lock is
held. -/
def lockRegion (t : List ServerEvent) : List ServerEvent :=
  ((t.dropWhile (fun ev => !ev.isAcquire)).drop 1).takeWhile
    (fun ev => !ev.isRelease)

/-- Observable steps of server construction
(`PailgunServer.__init__`, pailgun_server.py:104-136). -/
inductive InitEvent where
  | serverBind
  | serverActivate
  | serverClose
  deriving DecidableEq, Repr

/-- Embedding of the bind-and-activate tail of `PailgunServer.__init__`
(pailgun_server.py:130-136): when `bind_and_activate` is set, try
`server_bind()` then `server_activate()`; on any exception from either, call
`server_close()` and re-raise the original exception.  The oracle arguments
give each collaborator call's outcome. -/
def PailgunServer.init (bindAndActivate : Bool)
    (bindResult activateResult : Except Exc Unit) :
    List InitEvent × Except Exc Unit :=
  if bindAndActivate then
    match bindResult with
    | .error e => ([InitEvent.serverBind, InitEvent.serverClose], .error e)
    | .ok () =>
      match activateResult with
      | .error e =>
        ([InitEvent.serverBind, InitEvent.serverActivate, InitEvent.serverClose],
         .error e)
      | .ok () => ([InitEvent.serverBind, InitEvent.serverActivate], .ok ())
  else ([], .ok ())

/-- Concrete oracle for a fully successful request: parse yields working
directory `/repo`, command `pants`, arguments `["list", "::"]` and an empty
environment; the runner, callback and codec writes all succeed. -/
def envSuccess : HandlerEnv :=
  { parseResult := .ok ("/repo", "pants", ["list", "::"], [])
    runnerRun := fun _ _ => .ok ()
    callbackResult := .ok ()
    sendStderrResult := .ok ()
    sendExitResult := .ok () }

/-- Concrete oracle where `handle` raises (the parse fails with `boom`) and
the error-path codec writes succeed. -/
def envHandleRaises : HandlerEnv :=
  { parseResult := .error "boom"
    runnerRun := fun _ _ => .ok ()
    callbackResult := .ok ()
    sendStderrResult := .ok ()
    sendExitResult := .ok () }

/-- Concrete oracle where `handle` raises and the error path itself also
fails: the stderr write raises `broken pipe`. -/
def envSendFails : HandlerEnv :=
  { parseResult := .error "boom"
    runnerRun := fun _ _ => .ok ()
    callbackResult := .ok ()
    sendStderrResult := .error "broken pipe"
    sendExitResult := .ok () }

/-- Concrete oracle where the request itself succeeds but the
request-completed callback raises `cb failed`. -/
def envCallbackRaises : HandlerEnv :=
  { parseResult := .ok ("/repo", "pants", ["list", "::"], [])
    runnerRun := fun _ _ => .ok ()
    callbackResult := .error "cb failed"
    sendStderrResult := .ok ()
    sendExitResult := .ok () }

/-- Shape of `PailgunHandler.handle` on a successful parse: exactly one
runner invocation, with the program token prepended, and the runner's own
outcome. -/
theorem handle_parse_ok (env : HandlerEnv) (wd cmd : String) (args : List String)
    (e : List (String × String)) (hp : env.parseResult = .ok (wd, cmd, args, e)) :
    PailgunHandler.handle env =
      ([Event.runnerRun ("./pants" :: args) e],
       env.runnerRun ("./pants" :: args) e) := by
  simp [PailgunHandler.handle, hp]

/-- Rendered tracebacks are never the empty string. -/
theorem formatExc_ne_empty (e : Exc) : formatExc e ≠ "" := by
  intro h
  have hlen : (formatExc e).length = 0 := by rw [h]; rfl
  rw [formatExc, String.length_append] at hlen
  have : 0 < ("Traceback (most recent call last):\n").length := by decide
  omega

/-- Release counts add over trace concatenation. -/
theorem releaseCount_append (s t : List Event) :
    releaseCount (s ++ t) = releaseCount s + releaseCount t := by
  simp [releaseCount, List.filter_append]

/-- The request phase performs no connection-releasing teardown call. -/
theorem releaseCount_handle (env : HandlerEnv) :
    releaseCount (PailgunHandler.handle env).1 = 0 := by
  rcases hp : env.parseResult with e | ⟨wd, cmd, args, en⟩ <;>
    simp [PailgunHandler.handle, hp, releaseCount, Event.releasesConnection]

/-- The error path performs no connection-releasing teardown call of its
own (teardown is the caller's `finally` step). -/
theorem releaseCount_handle_error (env : HandlerEnv) (o : Option Exc) :
    releaseCount (PailgunHandler.handle_error env o).1 = 0 := by
  rcases o with _ | e <;>
    rcases hx : env.sendExitResult with e2 | _ <;>
    rcases hs : env.sendStderrResult with e3 | _ <;>
    simp [PailgunHandler.handle_error, hx, hs, releaseCount,
      Event.releasesConnection]

/-- C1: when `handle()` (parse, prepend, runner run) and the
request-completed callback both return normally, `process_request_thread`
invokes the callback exactly once and then releases the connection via
`close_request` only — no `shutdown_request` call occurs, and the thread body
returns normally. -/
theorem c1_success_path (env : HandlerEnv) (wd cmd : String)
    (args : List String) (e : List (String × String))
    (hp : env.parseResult = .ok (wd, cmd, args, e))
    (hr : env.runnerRun ("./pants" :: args) e = .ok ())
    (hc : env.callbackResult = .ok ()) :
    callbackCount (PailgunServer.process_request_thread env).1 = 1 ∧
    Event.closeRequest ∈ (PailgunServer.process_request_thread env).1 ∧
    Event.shutdownRequest ∉ (PailgunServer.process_request_thread env).1 ∧
    (PailgunServer.process_request_thread env).2 = .ok () := by
  simp [PailgunServer.process_request_thread, PailgunHandler.handle_request,
    PailgunHandler.handle, hp, hr, hc, callbackCount, Event.isCallback]

/-- Witness for C1 at the concrete success oracle. -/
theorem c1_success_path_witness :
    callbackCount (PailgunServer.process_request_thread envSuccess).1 = 1 ∧
    Event.closeRequest ∈ (PailgunServer.process_request_thread envSuccess).1 ∧
    Event.shutdownRequest ∉ (PailgunServer.process_request_thread envSuccess).1 ∧
    (PailgunServer.process_request_thread envSuccess).2 = .ok () :=
  c1_success_path envSuccess "/repo" "pants" ["list", "::"] [] rfl rfl rfl

/-- C2: when `handle()` raises and the codec writes succeed, the thread's
trace is the request-phase trace followed by a non-empty stderr write, then
an exit-code write of exactly `1`, then the `shutdown_request` teardown —
which both shuts the connection down and closes it. -/
theorem c2_error_path (env : HandlerEnv) (e : Exc)
    (hh : (PailgunHandler.handle_request env).2 = .error e)
    (hs : env.sendStderrResult = .ok ())
    (hx : env.sendExitResult = .ok ()) :
    (PailgunServer.process_request_thread env).1 =
      (PailgunHandler.handle_request env).1 ++
        [Event.sendStderr (formatExc e), Event.sendExit 1,
         Event.shutdownRequest] ∧
    formatExc e ≠ "" ∧
    Event.shutdownRequest.shutsDownConnection = true ∧
    Event.shutdownRequest.closesConnection = true := by
  refine ⟨?_, formatExc_ne_empty e, rfl, rfl⟩
  simp [PailgunServer.process_request_thread, hh,
    PailgunHandler.handle_error, hs, hx]

/-- Witness for C2 at the concrete failed-parse oracle. -/
theorem c2_error_path_witness :
    (PailgunServer.process_request_thread envHandleRaises).1 =
      (PailgunHandler.handle_request envHandleRaises).1 ++
        [Event.sendStderr (formatExc "boom"), Event.sendExit 1,
         Event.shutdownRequest] ∧
    formatExc "boom" ≠ "" ∧
    Event.shutdownRequest.shutsDownConnection = true ∧
    Event.shutdownRequest.closesConnection = true :=
  c2_error_path envHandleRaises "boom" rfl rfl rfl

/-- C3: when `handle()` raises and the error path itself raises as well, the
`finally` teardown still happens — `shutdown_request` (shutdown plus close)
is in the thread trace — the error-path failure propagates only as the thread
body's outcome, and, the thread runtime absorbing body failures, it never
escalates to the listener's dispatch step. -/
theorem c3_error_path_failure_contained (env : HandlerEnv) (e e2 : Exc)
    (hh : (PailgunHandler.handle_request env).2 = .error e)
    (hfail : (PailgunHandler.handle_error env (some e)).2 = .error e2) :
    Event.shutdownRequest ∈ (PailgunServer.process_request_thread env).1 ∧
    (PailgunServer.process_request_thread env).2 = .error e2 ∧
    threadEscalatesToListener (PailgunServer.process_request env) = false := by
  refine ⟨?_, ?_, rfl⟩ <;>
    simp [PailgunServer.process_request_thread, hh, hfail]

/-- Witness for C3 at the concrete oracle whose stderr write fails. -/
theorem c3_error_path_failure_contained_witness :
    Event.shutdownRequest ∈ (PailgunServer.process_request_thread envSendFails).1 ∧
    (PailgunServer.process_request_thread envSendFails).2 = .error "broken pipe" ∧
    threadEscalatesToListener (PailgunServer.process_request envSendFails) = false :=
  c3_error_path_failure_contained envSendFails "boom" "broken pipe" rfl rfl

/-- C4: whenever the listener's `handle_request` reaches the accept+dispatch
step (the select reported a readable socket), its trace is exactly select,
acquire, non-blocking dispatch, release — the lock is taken before the
accept, released unconditionally as the final step for every dispatch
outcome including a raising one (the statement quantifies over the dispatch
outcome `r`), and the only step under the lock is the thread-spawning
dispatch, never the spawned thread's request processing, whose events live
on the `SpawnedThread` body outside this trace.  When the select times out
the lock is never acquired. -/
theorem c4_lock_discipline (st sv : Option ℚ) (ready : Bool)
    (r : Except Exc Unit) :
    (ready = true →
      (PailgunServer.handle_request st sv ready r).1 =
        [ServerEvent.selectWait (effective_timeout st sv),
         ServerEvent.acquireLifecycleLock,
         ServerEvent.handleRequestNoblock,
         ServerEvent.releaseLifecycleLock] ∧
      lockRegion (PailgunServer.handle_request st sv ready r).1 =
        [ServerEvent.handleRequestNoblock]) ∧
    (ready = false →
      ServerEvent.acquireLifecycleLock ∉
        (PailgunServer.handle_request st sv ready r).1) := by
  cases ready <;>
    simp [PailgunServer.handle_request, lockRegion, List.dropWhile,
      List.takeWhile, ServerEvent.isAcquire, ServerEvent.isRelease]

/-- Witness for C4 at a concrete timeout pair with a raising dispatch. -/
theorem c4_lock_discipline_witness :
    ((true : Bool) = true →
      (PailgunServer.handle_request (some (1/10)) (some PailgunServer.timeout)
          true (.error "accept failed")).1 =
        [ServerEvent.selectWait
           (effective_timeout (some (1/10)) (some PailgunServer.timeout)),
         ServerEvent.acquireLifecycleLock,
         ServerEvent.handleRequestNoblock,
         ServerEvent.releaseLifecycleLock] ∧
      lockRegion (PailgunServer.handle_request (some (1/10))
          (some PailgunServer.timeout) true (.error "accept failed")).1 =
        [ServerEvent.handleRequestNoblock]) ∧
    ((true : Bool) = false →
      ServerEvent.acquireLifecycleLock ∉
        (PailgunServer.handle_request (some (1/10)) (some PailgunServer.timeout)
            true (.error "accept failed")).1) :=
  c4_lock_discipline (some (1/10)) (some PailgunServer.timeout) true
    (.error "accept failed")

/-- C5: with the class timeout `0.05`, the listener's select wait uses the
minimum of the socket's own timeout (when set) and `0.05` — and `0.05`
itself when the socket has no timeout — and when nothing becomes readable
within that bound, `handle_request` performs only the idle tick: it returns
normally, without acquiring the lock or dispatching. -/
theorem c5_idle_tick (st : Option ℚ) (r : Except Exc Unit) :
    (∀ t, st = some t →
      effective_timeout st (some PailgunServer.timeout) =
        some (min t PailgunServer.timeout)) ∧
    (st = none →
      effective_timeout st (some PailgunServer.timeout) =
        some PailgunServer.timeout) ∧
    PailgunServer.handle_request st (some PailgunServer.timeout) false r =
      ([ServerEvent.selectWait (effective_timeout st (some PailgunServer.timeout)),
        ServerEvent.handleTimeout], .ok ()) := by
  refine ⟨fun t ht => ?_, fun ht => ?_, ?_⟩
  · simp [ht, effective_timeout]
  · simp [ht, effective_timeout]
  · simp [PailgunServer.handle_request]

/-- Witness for C5 at a concrete socket timeout of one tenth of a second. -/
theorem c5_idle_tick_witness :
    (∀ t, (some (1/10) : Option ℚ) = some t →
      effective_timeout (some (1/10)) (some PailgunServer.timeout) =
        some (min t PailgunServer.timeout)) ∧
    ((some (1/10) : Option ℚ) = none →
      effective_timeout (some (1/10)) (some PailgunServer.timeout) =
        some PailgunServer.timeout) ∧
    PailgunServer.handle_request (some (1/10)) (some PailgunServer.timeout)
        false (.error "unused") =
      ([ServerEvent.selectWait
          (effective_timeout (some (1/10)) (some PailgunServer.timeout)),
        ServerEvent.handleTimeout], .ok ()) :=
  c5_idle_tick (some (1/10)) (.error "unused")

/-- C6: for a decoded request with arguments `["list", "::"]` and empty
environment, `handle` prepends the fixed program token `./pants` and the
request phase consists of exactly one runner invocation with arguments
`["./pants", "list", "::"]` and the empty environment. -/
theorem c6_prepend_program_token (env : HandlerEnv) (wd cmd : String)
    (hp : env.parseResult = .ok (wd, cmd, ["list", "::"], [])) :
    (PailgunHandler.handle env).1 =
      [Event.runnerRun ["./pants", "list", "::"] []] := by
  simp [PailgunHandler.handle, hp]

/-- Witness for C6 at the concrete success oracle. -/
theorem c6_prepend_program_token_witness :
    (PailgunHandler.handle envSuccess).1 =
      [Event.runnerRun ["./pants", "list", "::"] []] :=
  c6_prepend_program_token envSuccess "/repo" "pants" rfl

/-- C7: when construction runs with `bind_and_activate` set and either
`server_bind` or `server_activate` raises, `__init__` calls `server_close`
as its final step and then propagates the original construction failure. -/
theorem c7_close_on_init_failure (bindResult activateResult : Except Exc Unit)
    (e : Exc)
    (h : bindResult = .error e ∨
      (bindResult = .ok () ∧ activateResult = .error e)) :
    (PailgunServer.init true bindResult activateResult).1.getLast? =
      some InitEvent.serverClose ∧
    (PailgunServer.init true bindResult activateResult).2 = .error e := by
  rcases h with h | ⟨h1, h2⟩ <;> simp [PailgunServer.init, *]

/-- Witness for C7 at a concrete bind failure. -/
theorem c7_close_on_init_failure_witness :
    (PailgunServer.init true (.error "address in use") (.ok ())).1.getLast? =
      some InitEvent.serverClose ∧
    (PailgunServer.init true (.error "address in use") (.ok ())).2 =
      .error "address in use" :=
  c7_close_on_init_failure (.error "address in use") (.ok ()) "address in use"
    (Or.inl rfl)

/-- C8: two decoded requests that differ only in the working-directory and
command fields (same arguments, same environment, same collaborator
behaviour otherwise) give identical observable behaviour of the whole
per-connection thread body — the same trace, including the runner
invocation's argument list, and the same outcome. -/
theorem c8_ignores_workdir_command (env : HandlerEnv)
    (wd1 cmd1 wd2 cmd2 : String) (args : List String)
    (e : List (String × String)) :
    PailgunServer.process_request_thread
        { env with parseResult := .ok (wd1, cmd1, args, e) } =
      PailgunServer.process_request_thread
        { env with parseResult := .ok (wd2, cmd2, args, e) } := rfl

/-- C9: when the request-completed callback raises after `handle()` returned
normally, the thread runs the error path: the trace is the runner invocation,
the callback invocation, a non-empty stderr traceback write, an exit-code
write of `1`, and the `shutdown_request` teardown — even though `run()`
completed successfully — and since the error path succeeds here the thread
body returns normally. -/
theorem c9_callback_failure_error_path (env : HandlerEnv) (wd cmd : String)
    (args : List String) (e : List (String × String)) (exc : Exc)
    (hp : env.parseResult = .ok (wd, cmd, args, e))
    (hr : env.runnerRun ("./pants" :: args) e = .ok ())
    (hc : env.callbackResult = .error exc)
    (hs : env.sendStderrResult = .ok ())
    (hx : env.sendExitResult = .ok ()) :
    (PailgunServer.process_request_thread env).1 =
      [Event.runnerRun ("./pants" :: args) e,
       Event.requestCompleteCallback,
       Event.sendStderr (formatExc exc), Event.sendExit 1,
       Event.shutdownRequest] ∧
    formatExc exc ≠ "" ∧
    (PailgunServer.process_request_thread env).2 = .ok () := by
  refine ⟨?_, formatExc_ne_empty exc, ?_⟩ <;>
    simp [PailgunServer.process_request_thread, PailgunHandler.handle_request,
      PailgunHandler.handle, PailgunHandler.handle_error, hp, hr, hc, hs, hx]

/-- Witness for C9 at the concrete oracle whose callback raises. -/
theorem c9_callback_failure_error_path_witness :
    (PailgunServer.process_request_thread envCallbackRaises).1 =
      [Event.runnerRun ("./pants" :: ["list", "::"]) [],
       Event.requestCompleteCallback,
       Event.sendStderr (formatExc "cb failed"), Event.sendExit 1,
       Event.shutdownRequest] ∧
    formatExc "cb failed" ≠ "" ∧
    (PailgunServer.process_request_thread envCallbackRaises).2 = .ok () :=
  c9_callback_failure_error_path envCallbackRaises "/repo" "pants"
    ["list", "::"] [] "cb failed" rfl rfl rfl rfl rfl

/-- C10: on every possible collaborator behaviour, the per-connection thread
body performs exactly one connection-releasing teardown call —
`close_request` on the success path or `shutdown_request` on the exception
path, never both and never neither. -/
theorem c10_released_exactly_once (env : HandlerEnv) :
    releaseCount (PailgunServer.process_request_thread env).1 = 1 := by
  have hco : releaseCount [Event.requestCompleteCallback, Event.closeRequest] = 1 := by
    simp [releaseCount, Event.releasesConnection]
  have hsd : releaseCount [Event.shutdownRequest] = 1 := by
    simp [releaseCount, Event.releasesConnection]
  rcases hh : (PailgunHandler.handle_request env).2 with e | _
  · simp only [PailgunServer.process_request_thread, hh, releaseCount_append]
    have h1 : releaseCount (PailgunHandler.handle_request env).1 = 0 :=
      releaseCount_handle env
    have h2 : releaseCount (PailgunHandler.handle_error env (some e)).1 = 0 :=
      releaseCount_handle_error env (some e)
    omega
  · rcases hc : env.callbackResult with e | _ <;>
      simp only [PailgunServer.process_request_thread, hh, hc,
        releaseCount_append]
    · have h1 : releaseCount (PailgunHandler.handle_request env).1 = 0 :=
        releaseCount_handle env
      have h2 : releaseCount (PailgunHandler.handle_error env (some e)).1 = 0 :=
        releaseCount_handle_error env (some e)
      have h3 : releaseCount [Event.requestCompleteCallback] = 0 := by
        simp [releaseCount, Event.releasesConnection]
      omega
    · have h1 : releaseCount (PailgunHandler.handle_request env).1 = 0 :=
        releaseCount_handle env
      omega

end PailgunSpec
